import Mathlib

/-!
Verification of the two player-import scripts of LeagueProWordleBackend:
`src/scripts/import_players.py` (variant A) and
`src/scripts/import_worlds_players.py` (variant B).

JSON documents are embedded as the inductive `JVal`; Python dictionaries
become association lists with first-match lookup, which agrees with Python
dict semantics because dict keys are unique.
-/

namespace LeagueImport

/-- A JSON value as produced by Python's `json.load`.  Numbers are modelled
as integers (the inputs relevant to the importers carry no fractional
numbers). -/
inductive JVal where
  | null
  | bool (b : Bool)
  | str (s : String)
  | num (n : Int)
  | arr (elems : List JVal)
  | obj (fields : List (String × JVal))

/-- Python `d[key]` / `key in d` on a dict, as first-match lookup on the
association list. -/
def dlookup : List (String × JVal) → String → Option JVal
  | [], _ => none
  | (k, v) :: rest, key => if k = key then some v else dlookup rest key

/-- Python `d[key] = val` on a dict: replace the value in place when the key
is present, append otherwise. -/
def dinsert : List (String × JVal) → String → JVal → List (String × JVal)
  | [], key, val => [(key, val)]
  | (k, v) :: rest, key, val =>
      if k = key then (key, val) :: rest else (k, v) :: dinsert rest key val

/-! ### Variant A: `import_players.py` -/

/-- The `defaults` dict of `process_player_data` in `import_players.py`
(lines 36-44), in its insertion order. -/
def defaultsA : List (String × JVal) :=
  [("team", JVal.str "Unknown"),
   ("role", JVal.str "Unknown"),
   ("region", JVal.str "Unknown"),
   ("active", JVal.bool true),
   ("year_started", JVal.num 2010),
   ("nationality", JVal.str "Unknown"),
   ("image_url", JVal.null)]

/-- One iteration of the defaulting loop of `process_player_data`
(variant A, lines 47-49): `if key not in player or player[key] is None:
player[key] = value`. -/
def stepA (player : List (String × JVal)) (kv : String × JVal) :
    List (String × JVal) :=
  match dlookup player kv.1 with
  | none => dinsert player kv.1 kv.2
  | some JVal.null => dinsert player kv.1 kv.2
  | some _ => player

/-- `process_player_data` of `import_players.py` (lines 33-51): merge the
record with `defaultsA`, replacing absent or `null` fields. -/
def process_player_data (player : List (String × JVal)) :
    List (String × JVal) :=
  List.foldl stepA player defaultsA

/-- The row tuple built by `import_players` (lines 101-110): each component
is `processed_player.get(field)`, so an absent field yields `None`. -/
structure RowA where
  name : JVal
  team : JVal
  role : JVal
  region : JVal
  active : JVal
  year_started : JVal
  nationality : JVal
  image_url : JVal

/-- Processing of one element of `player_list` in variant A's loop (lines
97-112).  A non-dict element makes the Python loop body raise (`player[key]
= value` is a `TypeError` on lists and strings, `key not in player` is a
`TypeError` on numbers, booleans and `None`, and `.get` is an
`AttributeError` on the rest), modelled as `none`. -/
def processedRowA : JVal → Option RowA
  | JVal.obj fields =>
    let p := process_player_data fields
    some { name := (dlookup p "name").getD JVal.null,
           team := (dlookup p "team").getD JVal.null,
           role := (dlookup p "role").getD JVal.null,
           region := (dlookup p "region").getD JVal.null,
           active := (dlookup p "active").getD JVal.null,
           year_started := (dlookup p "year_started").getD JVal.null,
           nationality := (dlookup p "nationality").getD JVal.null,
           image_url := (dlookup p "image_url").getD JVal.null }
  | _ => none

/-- The `player_list` assignment of `import_players` (lines 81-94): a list
is used directly; a dict with a `"players"` key yields `data["players"]`
whatever its type; any other dict yields the list of its values; anything
else is the unsupported-format abort, modelled as `none`. -/
def resolveShape : JVal → Option JVal
  | JVal.arr xs => some (JVal.arr xs)
  | JVal.obj fields =>
    match dlookup fields "players" with
    | some v => some v
    | none => some (JVal.arr (fields.map Prod.snd))
  | _ => none

/-- Python iteration (`for player in player_list`): lists yield their
elements, dicts their keys, strings their characters; iterating any other
value raises `TypeError`, modelled as `none`. -/
def pyIter : JVal → Option (List JVal)
  | JVal.arr xs => some xs
  | JVal.obj fields => some (fields.map fun kv => JVal.str kv.1)
  | JVal.str s => some (s.data.map fun c => JVal.str (String.singleton c))
  | _ => none

/-- The list of records variant A actually iterates over for a given parsed
document, `none` when the run aborts before the loop body can run. -/
def codeRecordList (data : JVal) : Option (List JVal) :=
  (resolveShape data).bind pyIter

/-! ### Variant B: `import_worlds_players.py`

`datetime.datetime.strptime(s, '%Y-%m-%d').date()` is embedded over the
character codes of `s`.  CPython's `_strptime` compiles the format to the
regex `\d\d\d\d-(1[0-2]|0[1-9]|[1-9])-(3[01]|[12]\d|0[1-9]|[1-9])`, matches
it as a prefix, and raises `ValueError` when characters are left over or
`datetime.date` rejects the numbers (year 0 or day past the month's end).
ASCII codes: 45 is the hyphen, 48-57 are the digits 0-9. -/

/-- A value of Python's `datetime.date`. -/
structure PyDate where
  year : Nat
  month : Nat
  day : Nat
deriving DecidableEq

/-- `\d`: an ASCII digit code. -/
def isDigitCode (n : Nat) : Bool := 48 ≤ n && n ≤ 57

/-- Python leap-year rule used by `datetime.date`. -/
def isLeap (y : Nat) : Bool := y % 4 == 0 && (y % 100 != 0 || y % 400 == 0)

/-- Length of a month per `datetime.date`. -/
def daysInMonth (y m : Nat) : Nat :=
  if m = 2 then (if isLeap y then 29 else 28)
  else if m = 4 ∨ m = 6 ∨ m = 9 ∨ m = 11 then 30
  else 31

/-- The `%m` regex `1[0-2]|0[1-9]|[1-9]` on character codes, with ordered
(greedy-first) alternation as in a backtracking engine; returns the month
and the unconsumed codes. -/
def parseMonth : List Nat → Option (Nat × List Nat)
  | [] => none
  | n :: rest =>
    if n = 49 then
      match rest with
      | n2 :: rest2 =>
        if 48 ≤ n2 ∧ n2 ≤ 50 then some (10 + (n2 - 48), rest2)
        else some (1, rest)
      | [] => some (1, [])
    else if n = 48 then
      match rest with
      | n2 :: rest2 =>
        if 49 ≤ n2 ∧ n2 ≤ 57 then some (n2 - 48, rest2) else none
      | [] => none
    else if 50 ≤ n ∧ n ≤ 57 then some (n - 48, rest)
    else none

/-- The `%d` regex `3[01]|[12]\d|0[1-9]|[1-9]` on character codes. -/
def parseDay : List Nat → Option (Nat × List Nat)
  | [] => none
  | n :: rest =>
    if n = 51 then
      match rest with
      | n2 :: rest2 =>
        if n2 = 48 ∨ n2 = 49 then some (30 + (n2 - 48), rest2)
        else some (3, rest)
      | [] => some (3, [])
    else if n = 49 ∨ n = 50 then
      match rest with
      | n2 :: rest2 =>
        if isDigitCode n2 then some (10 * (n - 48) + (n2 - 48), rest2)
        else some (n - 48, rest)
      | [] => some (n - 48, [])
    else if n = 48 then
      match rest with
      | n2 :: rest2 =>
        if 49 ≤ n2 ∧ n2 ≤ 57 then some (n2 - 48, rest2) else none
      | [] => none
    else if 52 ≤ n ∧ n ≤ 57 then some (n - 48, rest)
    else none

/-- `strptime(s, '%Y-%m-%d').date()` on the character codes of `s`:
four digit codes, a hyphen, the month, a hyphen, the day, nothing left
over, and the numbers accepted by `datetime.date`. -/
def parseYMDCodes : List Nat → Option PyDate
  | y1 :: y2 :: y3 :: y4 :: 45 :: rest =>
    if isDigitCode y1 && isDigitCode y2 && isDigitCode y3 && isDigitCode y4 then
      let y := 1000 * (y1 - 48) + 100 * (y2 - 48) + 10 * (y3 - 48) + (y4 - 48)
      match parseMonth rest with
      | some (m, 45 :: rest2) =>
        match parseDay rest2 with
        | some (d, []) =>
          if 1 ≤ y ∧ d ≤ daysInMonth y m then some ⟨y, m, d⟩ else none
        | _ => none
      | _ => none
    else none
  | _ => none

/-- `datetime.datetime.strptime(s, '%Y-%m-%d').date()`, with a parse
failure (`ValueError`) as `none`. -/
def pyStrptimeYMD (s : String) : Option PyDate :=
  parseYMDCodes (s.data.map Char.toNat)

/-- Python truthiness of a JSON value (`if player_data['birthdate']:`). -/
def pyTruthy : JVal → Bool
  | JVal.null => false
  | JVal.bool b => b
  | JVal.str s => !s.isEmpty
  | JVal.num n => n != 0
  | JVal.arr xs => !xs.isEmpty
  | JVal.obj fields => !fields.isEmpty

/-- The birthdate computation of variant B's `process_player_data` (lines
36-42).  Only `ValueError` is caught there, so a truthy non-string value
(where `strptime` raises `TypeError`) escapes the record's processing,
modelled as `Except.error`. -/
def birthdateOf (player_data : List (String × JVal)) :
    Except String (Option PyDate) :=
  match dlookup player_data "birthdate" with
  | some v =>
    if pyTruthy v then
      match v with
      | JVal.str s => Except.ok (pyStrptimeYMD s)
      | _ => Except.error "TypeError: strptime argument must be str"
    else Except.ok none
  | none => Except.ok none

/-- Lowercase hexadecimal digit, as in `json.dumps`'s `\uXXXX` escapes. -/
def hexDigitChar (n : Nat) : Char :=
  if n < 10 then Char.ofNat (48 + n) else Char.ofNat (87 + n)

/-- Four lowercase hex digits. -/
def hex4 (n : Nat) : List Char :=
  [hexDigitChar (n / 4096 % 16), hexDigitChar (n / 256 % 16),
   hexDigitChar (n / 16 % 16), hexDigitChar (n % 16)]

/-- Escaping of one character by `json.dumps` with its default
`ensure_ascii=True`: backslash, quote and the five named control escapes
get two-character forms, printable ASCII (0x20-0x7e) passes through, and
everything else becomes `\uXXXX`, astral characters as a surrogate pair. -/
def jsonEscapeChar (c : Char) : List Char :=
  let n := c.toNat
  if n = 92 then ['\\', '\\']
  else if n = 34 then ['\\', '"']
  else if n = 8 then ['\\', 'b']
  else if n = 9 then ['\\', 't']
  else if n = 10 then ['\\', 'n']
  else if n = 12 then ['\\', 'f']
  else if n = 13 then ['\\', 'r']
  else if 32 ≤ n ∧ n ≤ 126 then [c]
  else if n < 65536 then '\\' :: 'u' :: hex4 n
  else
    ('\\' :: 'u' :: hex4 (55296 + (n - 65536) / 1024)) ++
      ('\\' :: 'u' :: hex4 (56320 + (n - 65536) % 1024))

/-- `json.dumps` on a string value. -/
def jsonDumpsStr (s : String) : String :=
  "\"" ++ String.mk (s.data.foldr (fun c acc => jsonEscapeChar c ++ acc) []) ++ "\""

mutual

/-- `json.dumps` with default arguments (`ensure_ascii=True`, separators
`", "` and `": "`). -/
def jsonDumpsVal : JVal → String
  | JVal.null => "null"
  | JVal.bool true => "true"
  | JVal.bool false => "false"
  | JVal.num n => toString n
  | JVal.str s => jsonDumpsStr s
  | JVal.arr xs => "[" ++ jsonDumpsList xs ++ "]"
  | JVal.obj fields => "\x7b" ++ jsonDumpsFields fields ++ "\x7d"

/-- Comma-joined encodings of an array's elements. -/
def jsonDumpsList : List JVal → String
  | [] => ""
  | [x] => jsonDumpsVal x
  | x :: y :: rest => jsonDumpsVal x ++ ", " ++ jsonDumpsList (y :: rest)

/-- Comma-joined `key: value` encodings of an object's entries. -/
def jsonDumpsFields : List (String × JVal) → String
  | [] => ""
  | [(k, v)] => jsonDumpsStr k ++ ": " ++ jsonDumpsVal v
  | (k, v) :: e :: rest =>
    jsonDumpsStr k ++ ": " ++ jsonDumpsVal v ++ ", " ++ jsonDumpsFields (e :: rest)

end

/-- The row dict built by variant B's `process_player_data` (lines 55-69),
in column order.  Fields read with `.get(key)` are `null` when absent,
exactly as Python's `None`. -/
structure RowB where
  name : String
  main_name : JVal
  all_names : String
  nationality : JVal
  residency : JVal
  birthdate : Option PyDate
  tournament_role : JVal
  team : JVal
  appearance : JVal
  player_current_role : JVal
  is_retired : Bool
  current_team : JVal
  current_team_region : JVal

/-- `process_player_data(player_key, player_data)` of
`import_worlds_players.py` (lines 34-71).  The only statement there that
can raise out of the function is the `strptime` call on a truthy non-string
birthdate, carried over from `birthdateOf`. -/
def process_player_dataB (player_key : String)
    (player_data : List (String × JVal)) : Except String RowB :=
  match birthdateOf player_data with
  | Except.error e => Except.error e
  | Except.ok birthdate =>
    let is_retired : Bool :=
      match dlookup player_data "isRetired" with
      | some (JVal.str s) => s = "1"
      | some _ => false
      | none => false
    let all_names : List JVal :=
      match dlookup player_data "allNames" with
      | some (JVal.arr xs) => xs
      | _ => []
    Except.ok
      { name := player_key,
        main_name := (dlookup player_data "mainName").getD (JVal.str player_key),
        all_names := jsonDumpsVal (JVal.arr all_names),
        nationality := (dlookup player_data "nationality").getD JVal.null,
        residency := (dlookup player_data "Residency").getD JVal.null,
        birthdate := birthdate,
        tournament_role := (dlookup player_data "tournament_role").getD JVal.null,
        team := (dlookup player_data "team").getD JVal.null,
        appearance := (dlookup player_data "appearance").getD JVal.null,
        player_current_role := (dlookup player_data "current_role").getD JVal.null,
        is_retired := is_retired,
        current_team := (dlookup player_data "current_team").getD JVal.null,
        current_team_region := (dlookup player_data "current_team_region").getD JVal.null }

/-! ### The import routines

Both `import_players` and `import_worlds_players` run after a successful
file read, JSON parse and database connection (a failed connection calls
`exit(1)` before the code modelled here).  The database is abstracted by
two flags: whether the `players` table exists and whether the batched
`execute_values` call raises. -/

/-- Abstract database behaviour for one run. -/
structure ImportEnv where
  tableExists : Bool
  upsertRaises : Bool

/-- Observable outcome of one run of an import routine. -/
structure ImportOutcome where
  connClosed : Bool
  rowsWritten : Nat
  committed : Bool
  messages : List String
  caught : Bool
deriving DecidableEq

/-- Message of the missing-table abort (lines 74 / 94). -/
def msgTableMissing : String :=
  "The \x27players\x27 table does not exist. Please run the init-db script first."

/-- Message of the unsupported-format abort (line 92, variant A only). -/
def msgUnsupported : String :=
  "Unsupported JSON format. Please provide a list of players or an object with a \x27players\x27 array."

/-- Message of the empty-list abort (lines 116 / 126). -/
def msgNoPlayers : String := "No players found in the JSON file."

/-- Message printed by the catch-all `except Exception` handler. -/
def msgGenericError : String := "Error importing players."

/-- Success message (lines 141 / 158). -/
def msgSuccess (n : Nat) : String :=
  "Successfully imported " ++ toString n ++ " players."

/-- Variant A's processing loop over the resolved elements: the whole loop
raises (modelled `none`) as soon as one element is not a dict. -/
def rowsA : List JVal → Option (List RowA)
  | [] => some []
  | e :: rest =>
    match processedRowA e with
    | none => none
    | some r =>
      match rowsA rest with
      | none => none
      | some rs => some (r :: rs)

/-- Variant B's processing loop over `data.items()`: an entry whose value
is not a dict raises inside `process_player_data` (membership tests and
`.get` fail on non-dicts), as does a truthy non-string birthdate. -/
def rowsB : List (String × JVal) → Option (List RowB)
  | [] => some []
  | (k, v) :: rest =>
    match v with
    | JVal.obj pd =>
      match process_player_dataB k pd with
      | Except.error _ => none
      | Except.ok r =>
        match rowsB rest with
        | none => none
        | some rs => some (r :: rs)
    | _ => none

/-- Outcome of an exit through the catch-all `except` handler: the message
is printed, nothing is committed, and the connection is left open (the
handler has no `conn.close()`). -/
def caughtOutcome : ImportOutcome :=
  { connClosed := false, rowsWritten := 0, committed := false,
    messages := [msgGenericError], caught := true }

/-- An early-return abort that does close the connection. -/
def abortOutcome (msg : String) : ImportOutcome :=
  { connClosed := true, rowsWritten := 0, committed := false,
    messages := [msg], caught := false }

/-- `import_players` of `import_players.py` (lines 53-150), from the table
check (line 65) to one of its exits. -/
def import_players_run (env : ImportEnv) (data : JVal) : ImportOutcome :=
  if !env.tableExists then abortOutcome msgTableMissing
  else
    match resolveShape data with
    | none => abortOutcome msgUnsupported
    | some player_list =>
      match pyIter player_list with
      | none => caughtOutcome
      | some elems =>
        match rowsA elems with
        | none => caughtOutcome
        | some rows =>
          if rows.isEmpty then abortOutcome msgNoPlayers
          else if env.upsertRaises then caughtOutcome
          else
            { connClosed := true, rowsWritten := rows.length, committed := true,
              messages := [msgSuccess rows.length], caught := false }

/-- `import_worlds_players` of `import_worlds_players.py` (lines 73-167).
The document must be a dict (`data.items()` raises on anything else); there
is no shape negotiation. -/
def import_worlds_run (env : ImportEnv) (data : JVal) : ImportOutcome :=
  if !env.tableExists then abortOutcome msgTableMissing
  else
    match data with
    | JVal.obj fields =>
      match rowsB fields with
      | none => caughtOutcome
      | some rows =>
        if rows.isEmpty then abortOutcome msgNoPlayers
        else if env.upsertRaises then caughtOutcome
        else
          { connClosed := true, rowsWritten := rows.length, committed := true,
            messages := [msgSuccess rows.length], caught := false }
    | _ => caughtOutcome

/-! ### The batched upsert

`execute_values` with `INSERT ... ON CONFLICT (name) DO UPDATE SET ...`
overwrites every non-key column of an existing row, so on a table modelled
as a map from name to row it is a sequence of keyed overwrites. -/

/-- One row of the multi-row insert: insert-or-overwrite at its key. -/
def upsertRow {α : Type} (t : String → Option α) (row : String × α) :
    String → Option α :=
  fun k => if k = row.1 then some row.2 else t k

/-- The whole batched statement, applied row by row in list order. -/
def upsertBatch {α : Type} (t : String → Option α) (rows : List (String × α)) :
    String → Option α :=
  rows.foldl upsertRow t

/-- The last row of the batch carrying a given key, which is the value the
statement leaves at that key. -/
def lookupLast {α : Type} : List (String × α) → String → Option α
  | [], _ => none
  | (n, r) :: rest, k =>
    match lookupLast rest k with
    | some v => some v
    | none => if k = n then some r else none

/-! ### Spec-side definitions

These two definitions follow the specification's words rather than the
source; they exist only to be compared with the code-derived definitions
above. -/

/-- Modelled from the spec: a strict `YYYY-MM-DD` date string, over
character codes — exactly ten characters, zero-padded digit groups split
by hyphens (code 45), denoting a valid calendar date of year at least 1. -/
def strictYMDCodes : List Nat → Bool
  | [y1, y2, y3, y4, c5, m1, m2, c8, d1, d2] =>
    decide (c5 = 45 ∧ c8 = 45 ∧
      (48 ≤ y1 ∧ y1 ≤ 57) ∧ (48 ≤ y2 ∧ y2 ≤ 57) ∧
      (48 ≤ y3 ∧ y3 ≤ 57) ∧ (48 ≤ y4 ∧ y4 ≤ 57) ∧
      (48 ≤ m1 ∧ m1 ≤ 57) ∧ (48 ≤ m2 ∧ m2 ≤ 57) ∧
      (48 ≤ d1 ∧ d1 ≤ 57) ∧ (48 ≤ d2 ∧ d2 ≤ 57) ∧
      1 ≤ 1000 * (y1 - 48) + 100 * (y2 - 48) + 10 * (y3 - 48) + (y4 - 48) ∧
      1 ≤ 10 * (m1 - 48) + (m2 - 48) ∧
      10 * (m1 - 48) + (m2 - 48) ≤ 12 ∧
      1 ≤ 10 * (d1 - 48) + (d2 - 48) ∧
      10 * (d1 - 48) + (d2 - 48) ≤
        daysInMonth
          (1000 * (y1 - 48) + 100 * (y2 - 48) + 10 * (y3 - 48) + (y4 - 48))
          (10 * (m1 - 48) + (m2 - 48)))
  | _ => false

/-- Modelled from the spec: `s` is a strict `YYYY-MM-DD` string denoting a
valid calendar date. -/
def isStrictYYYYMMDD (s : String) : Bool :=
  strictYMDCodes (s.data.map Char.toNat)

/-- The calendar date denoted by a strict `YYYY-MM-DD` code list
(placeholder date on any other shape). -/
def strictDateCodes : List Nat → PyDate
  | [y1, y2, y3, y4, _, m1, m2, _, d1, d2] =>
    ⟨1000 * (y1 - 48) + 100 * (y2 - 48) + 10 * (y3 - 48) + (y4 - 48),
     10 * (m1 - 48) + (m2 - 48), 10 * (d1 - 48) + (d2 - 48)⟩
  | _ => ⟨1, 1, 1⟩

/-- The calendar date denoted by a strict `YYYY-MM-DD` string. -/
def strictDateOf (s : String) : PyDate :=
  strictDateCodes (s.data.map Char.toNat)

/-- Modelled from the spec: the shape resolution the specification
describes for variant A — a sequence is used directly; a mapping whose
`"players"` value is a sequence uses that sequence; any other mapping uses
the sequence of its values; anything else is unsupported. -/
def claimResolveA : JVal → Option (List JVal)
  | JVal.arr xs => some xs
  | JVal.obj fields =>
    match dlookup fields "players" with
    | some (JVal.arr xs) => some xs
    | _ => some (fields.map Prod.snd)
  | _ => none

/-- A variant-B row with every optional input absent: the shape
`process_player_dataB k []` produces.  Used to spell out concrete rows. -/
def simpleRowB (k : String) : RowB :=
  { name := k, main_name := JVal.str k, all_names := "[]",
    nationality := JVal.null, residency := JVal.null, birthdate := none,
    tournament_role := JVal.null, team := JVal.null, appearance := JVal.null,
    player_current_role := JVal.null, is_retired := false,
    current_team := JVal.null, current_team_region := JVal.null }

/-! ### Lemmas about dict lookup and insertion -/

theorem dlookup_dinsert_self (p : List (String × JVal)) (key : String) (val : JVal) :
    dlookup (dinsert p key val) key = some val := by
  induction p with
  | nil => simp [dinsert, dlookup]
  | cons hd tl ih =>
    obtain ⟨k0, v0⟩ := hd
    by_cases h : k0 = key
    · subst h; simp [dinsert, dlookup]
    · simp [dinsert, dlookup, h, ih]

theorem dlookup_dinsert_ne (p : List (String × JVal)) (key : String) (val : JVal)
    (f : String) (h : key ≠ f) :
    dlookup (dinsert p key val) f = dlookup p f := by
  induction p with
  | nil => simp [dinsert, dlookup, h]
  | cons hd tl ih =>
    obtain ⟨k0, v0⟩ := hd
    by_cases h0 : k0 = key
    · subst h0; simp [dinsert, dlookup, h]
    · simp [dinsert, dlookup, h0, ih]

theorem stepA_lookup_ne (p : List (String × JVal)) (kv : String × JVal)
    (f : String) (h : kv.1 ≠ f) :
    dlookup (stepA p kv) f = dlookup p f := by
  unfold stepA
  cases hl : dlookup p kv.1 with
  | none => exact dlookup_dinsert_ne p kv.1 kv.2 f h
  | some v => cases v <;> simp [dlookup_dinsert_ne p kv.1 kv.2 f h]

theorem stepA_lookup_default (p : List (String × JVal)) (f : String) (d : JVal)
    (h : dlookup p f = none ∨ dlookup p f = some JVal.null) :
    dlookup (stepA p (f, d)) f = some d := by
  unfold stepA
  rcases h with h | h <;> rw [h] <;> exact dlookup_dinsert_self p f d

theorem stepA_lookup_keep (p : List (String × JVal)) (f : String) (d : JVal)
    (v : JVal) (hv : dlookup p f = some v) (hne : v ≠ JVal.null) :
    dlookup (stepA p (f, d)) f = some v := by
  unfold stepA
  rw [hv]
  cases v <;> simp_all

theorem dlookup_foldl_stepA_ne (l : List (String × JVal))
    (p : List (String × JVal)) (f : String) (h : ∀ kv ∈ l, kv.1 ≠ f) :
    dlookup (List.foldl stepA p l) f = dlookup p f := by
  induction l generalizing p with
  | nil => rfl
  | cons hd tl ih =>
    rw [List.foldl_cons,
      ih (stepA p hd) (fun kv hm => h kv (List.mem_cons_of_mem _ hm)),
      stepA_lookup_ne p hd f (h hd (List.mem_cons_self _ _))]

theorem foldl_stepA_mem (l : List (String × JVal)) (p : List (String × JVal))
    (f : String) (d : JVal) (hmem : (f, d) ∈ l)
    (hnd : (l.map Prod.fst).Nodup) :
    ((dlookup p f = none ∨ dlookup p f = some JVal.null) →
       dlookup (List.foldl stepA p l) f = some d) ∧
    (∀ v, dlookup p f = some v → v ≠ JVal.null →
       dlookup (List.foldl stepA p l) f = some v) := by
  induction l generalizing p with
  | nil => cases hmem
  | cons hd tl ih =>
    obtain ⟨k0, v0⟩ := hd
    rw [List.map_cons, List.nodup_cons] at hnd
    rcases List.mem_cons.mp hmem with heq | htl
    · obtain ⟨hf, hd0⟩ := Prod.mk.injEq .. ▸ heq
      subst hf; subst hd0
      have hkeys : ∀ kv ∈ tl, kv.1 ≠ f := by
        intro kv hm hc
        have hmm : kv.1 ∈ tl.map Prod.fst := List.mem_map_of_mem Prod.fst hm
        exact hnd.1 (hc ▸ hmm)
      constructor
      · intro h0
        rw [List.foldl_cons, dlookup_foldl_stepA_ne tl _ f hkeys]
        exact stepA_lookup_default p f d h0
      · intro v hv hne
        rw [List.foldl_cons, dlookup_foldl_stepA_ne tl _ f hkeys]
        exact stepA_lookup_keep p f d v hv hne
    · have hk0 : k0 ≠ f := by
        intro hc
        have hmm : f ∈ tl.map Prod.fst := List.mem_map_of_mem Prod.fst htl
        exact hnd.1 (hc ▸ hmm)
      have hstep : dlookup (stepA p (k0, v0)) f = dlookup p f :=
        stepA_lookup_ne p (k0, v0) f hk0
      have := ih (stepA p (k0, v0)) htl hnd.2
      rw [hstep] at this
      exact ⟨fun h0 => List.foldl_cons .. ▸ this.1 h0,
             fun v hv hne => List.foldl_cons .. ▸ this.2 v hv hne⟩

/-! ### Claim theorems -/

/-- C1: for every variant-A record and each of the seven optional fields,
an absent or explicitly-null field is replaced by its documented default
("Unknown" for the four strings, `true` for `active`, `2010` for
`year_started`, `null` for `image_url`), and a present non-null field
keeps its input value. -/
theorem claim_C1 (player : List (String × JVal)) (f : String) (d : JVal)
    (hmem : (f, d) ∈ defaultsA) :
    ((dlookup player f = none ∨ dlookup player f = some JVal.null) →
       dlookup (process_player_data player) f = some d) ∧
    (∀ v, dlookup player f = some v → v ≠ JVal.null →
       dlookup (process_player_data player) f = some v) :=
  foldl_stepA_mem defaultsA player f d hmem (by decide)

theorem claim_C1_witness :
    dlookup (process_player_data [("name", JVal.str "Faker")]) "team"
      = some (JVal.str "Unknown") :=
  (claim_C1 [("name", JVal.str "Faker")] "team" (JVal.str "Unknown")
    (by simp [defaultsA])).1 (Or.inl rfl)

/-- Shared opener for the variant-B per-record claims: a successfully
processed record is the literal row built at lines 55-69, with the
birthdate slot already resolved. -/
theorem processB_ok (k : String) (pd : List (String × JVal)) (row : RowB)
    (h : process_player_dataB k pd = Except.ok row) :
    ∃ b, birthdateOf pd = Except.ok b ∧
      row = { name := k,
              main_name := (dlookup pd "mainName").getD (JVal.str k),
              all_names := jsonDumpsVal (JVal.arr
                (match dlookup pd "allNames" with
                 | some (JVal.arr xs) => xs
                 | _ => [])),
              nationality := (dlookup pd "nationality").getD JVal.null,
              residency := (dlookup pd "Residency").getD JVal.null,
              birthdate := b,
              tournament_role := (dlookup pd "tournament_role").getD JVal.null,
              team := (dlookup pd "team").getD JVal.null,
              appearance := (dlookup pd "appearance").getD JVal.null,
              player_current_role := (dlookup pd "current_role").getD JVal.null,
              is_retired := (match dlookup pd "isRetired" with
                 | some (JVal.str s) => decide (s = "1")
                 | some _ => false
                 | none => false),
              current_team := (dlookup pd "current_team").getD JVal.null,
              current_team_region :=
                (dlookup pd "current_team_region").getD JVal.null } := by
  unfold process_player_dataB at h
  cases hb : birthdateOf pd with
  | error e => rw [hb] at h; cases h
  | ok b =>
    rw [hb] at h
    exact ⟨b, rfl, (Except.ok.injEq .. ▸ h).symm⟩

/-- C6: variant B's `is_retired` is true iff the raw `isRetired` value is
the exact string "1"; any other value, absent keys included, gives
false. -/
theorem claim_C6 (k : String) (pd : List (String × JVal)) (row : RowB)
    (h : process_player_dataB k pd = Except.ok row) :
    row.is_retired = true ↔ dlookup pd "isRetired" = some (JVal.str "1") := by
  obtain ⟨b, _, hrow⟩ := processB_ok k pd row h
  subst hrow
  cases hr : dlookup pd "isRetired" with
  | none => simp
  | some v => cases v <;> simp

theorem claim_C6_witness :
    ({ simpleRowB "p1" with is_retired := true } : RowB).is_retired = true :=
  (claim_C6 "p1" [("isRetired", JVal.str "1")]
    { simpleRowB "p1" with is_retired := true } rfl).mpr rfl

/-- C7: variant B's `all_names` is the JSON-encoded array string of
`allNames` when that key holds a sequence, and the JSON-encoded empty
array string `"[]"` otherwise. -/
theorem claim_C7 (k : String) (pd : List (String × JVal)) (row : RowB)
    (h : process_player_dataB k pd = Except.ok row) :
    row.all_names = (match dlookup pd "allNames" with
      | some (JVal.arr xs) => jsonDumpsVal (JVal.arr xs)
      | _ => jsonDumpsVal (JVal.arr [])) ∧
    jsonDumpsVal (JVal.arr []) = "[]" := by
  obtain ⟨b, _, hrow⟩ := processB_ok k pd row h
  subst hrow
  refine ⟨?_, rfl⟩
  cases hr : dlookup pd "allNames" with
  | none => simp
  | some v => cases v <;> simp

theorem claim_C7_witness :
    ({ simpleRowB "p1" with all_names := "[\"A\", \"B\"]" } : RowB).all_names
      = "[\"A\", \"B\"]" :=
  ((claim_C7 "p1" [("allNames", JVal.arr [JVal.str "A", JVal.str "B"])]
    { simpleRowB "p1" with all_names := "[\"A\", \"B\"]" } rfl).1).trans rfl

/-- C8: variant B's `name` is the mapping key, overriding any `"name"`
field inside the value, and `main_name` is the `mainName` field when that
key is present, defaulting to the mapping key when it is absent. -/
theorem claim_C8 (k : String) (pd : List (String × JVal)) (row : RowB)
    (h : process_player_dataB k pd = Except.ok row) :
    row.name = k ∧
    row.main_name = (match dlookup pd "mainName" with
      | some v => v
      | none => JVal.str k) := by
  obtain ⟨b, _, hrow⟩ := processB_ok k pd row h
  subst hrow
  refine ⟨rfl, ?_⟩
  cases hr : dlookup pd "mainName" <;> simp

theorem claim_C8_witness :
    ({ simpleRowB "p1" with main_name := JVal.str "M" } : RowB).name = "p1" :=
  (claim_C8 "p1" [("name", JVal.str "X"), ("mainName", JVal.str "M")]
    { simpleRowB "p1" with main_name := JVal.str "M" } rfl).1

/-- C10: in variant B a `mainName` key that is present with value null
yields a null `main_name`; the default to the mapping key applies only
when the key is entirely absent. -/
theorem claim_C10 (k : String) (pd : List (String × JVal)) (row : RowB)
    (h : process_player_dataB k pd = Except.ok row) :
    (dlookup pd "mainName" = some JVal.null → row.main_name = JVal.null) ∧
    (dlookup pd "mainName" = none → row.main_name = JVal.str k) := by
  obtain ⟨b, _, hrow⟩ := processB_ok k pd row h
  subst hrow
  exact ⟨fun hr => by simp [hr], fun hr => by simp [hr]⟩

theorem claim_C10_witness :
    ({ simpleRowB "p1" with main_name := JVal.null } : RowB).main_name
      = JVal.null :=
  (claim_C10 "p1" [("mainName", JVal.null)]
    { simpleRowB "p1" with main_name := JVal.null } rfl).1 rfl

/-- Pointwise value of the batched upsert: the last batch row with the key
wins, otherwise the table is untouched. -/
theorem upsertBatch_eval {α : Type} (rows : List (String × α))
    (t : String → Option α) (k : String) :
    upsertBatch t rows k =
      match lookupLast rows k with
      | some v => some v
      | none => t k := by
  induction rows generalizing t with
  | nil => rfl
  | cons hd tl ih =>
    obtain ⟨n, r⟩ := hd
    show upsertBatch (upsertRow t (n, r)) tl k = _
    rw [ih]
    cases hl : lookupLast tl k with
    | some v => simp [lookupLast, hl]
    | none =>
      by_cases hk : k = n
      · subst hk; simp [lookupLast, hl, upsertRow]
      · simp [lookupLast, hl, upsertRow, hk]

/-- C9: the batched full-row-overwrite upsert is idempotent — applying the
same record list twice to a table (a map from name to row) equals applying
it once. -/
theorem claim_C9 {α : Type} (t : String → Option α) (rows : List (String × α)) :
    upsertBatch (upsertBatch t rows) rows = upsertBatch t rows := by
  funext k
  rw [upsertBatch_eval, upsertBatch_eval]
  cases hl : lookupLast rows k with
  | some v => rfl
  | none => rfl

/-- C5: each early-abort path of variant A — missing table, unrecognized
shape, empty record list — prints one message, writes zero rows, commits
nothing, and ends without the exception handler running. -/
theorem claim_C5 (env : ImportEnv) (data : JVal) :
    (env.tableExists = false →
       import_players_run env data = abortOutcome msgTableMissing) ∧
    (env.tableExists = true → resolveShape data = none →
       import_players_run env data = abortOutcome msgUnsupported) ∧
    (∀ pl, env.tableExists = true → resolveShape data = some pl →
       pyIter pl = some [] →
       import_players_run env data = abortOutcome msgNoPlayers) ∧
    (∀ msg, (abortOutcome msg).messages = [msg] ∧
       (abortOutcome msg).rowsWritten = 0 ∧
       (abortOutcome msg).committed = false ∧
       (abortOutcome msg).caught = false) := by
  refine ⟨?_, ?_, ?_, fun msg => ⟨rfl, rfl, rfl, rfl⟩⟩
  · intro h; simp [import_players_run, h]
  · intro h hr; simp [import_players_run, h, hr]
  · intro pl h hr hi; simp [import_players_run, h, hr, hi, rowsA]

theorem claim_C5_witness :
    import_players_run ⟨false, false⟩ (JVal.arr []) = abortOutcome msgTableMissing ∧
    import_players_run ⟨true, false⟩ (JVal.num 7) = abortOutcome msgUnsupported ∧
    import_players_run ⟨true, false⟩ (JVal.arr []) = abortOutcome msgNoPlayers :=
  ⟨(claim_C5 ⟨false, false⟩ (JVal.arr [])).1 rfl,
   (claim_C5 ⟨true, false⟩ (JVal.num 7)).2.1 rfl rfl,
   (claim_C5 ⟨true, false⟩ (JVal.arr [])).2.2.1 (JVal.arr []) rfl rfl rfl⟩

/-- C4 counterexample: with the table present and the batched upsert
raising a database error, variant A ends through the catch-all `except`
handler, which prints and returns without `conn.close()` — the connection
is not explicitly closed on that exit path. -/
theorem claim_C4_counterexample :
    (import_players_run ⟨true, true⟩
       (JVal.arr [JVal.obj [("name", JVal.str "Faker")]])).connClosed = false := by
  rfl

/-- C4 as amended: in both importers the connection is explicitly closed on
the normal path and on every early-return abort path, and is left open
exactly on the paths that exit through the catch-all exception handler
(processing errors and database errors during the upsert or commit). -/
theorem claim_C4_amended (env : ImportEnv) (data : JVal) :
    (import_players_run env data).connClosed
        = !(import_players_run env data).caught ∧
    (import_worlds_run env data).connClosed
        = !(import_worlds_run env data).caught := by
  constructor
  · unfold import_players_run
    repeat' split
    all_goals rfl
  · unfold import_worlds_run
    repeat' split
    all_goals rfl

/-- C3 counterexample: on the mapping `{"players": 5}` — whose `"players"`
value is not a sequence — the claim's case analysis uses the sequence of
the mapping's values, `[5]`, as the record list, but the code assigns
`data["players"]` itself, a number, so iteration raises and the run never
has a record list. -/
theorem claim_C3_counterexample :
    codeRecordList (JVal.obj [("players", JVal.num 5)]) = none ∧
    claimResolveA (JVal.obj [("players", JVal.num 5)]) = some [JVal.num 5] :=
  ⟨rfl, rfl⟩

/-- C3 as amended: a sequence is used directly; a mapping with a
`"players"` key uses that key's value whatever its type (a non-sequence
value later makes the iteration fail); any other mapping uses the sequence
of its values; everything else aborts with the unsupported-format message
and no writes. -/
theorem claim_C3_amended (data : JVal) :
    (∀ xs, data = JVal.arr xs → resolveShape data = some (JVal.arr xs)) ∧
    (∀ fields v, data = JVal.obj fields → dlookup fields "players" = some v →
       resolveShape data = some v) ∧
    (∀ fields, data = JVal.obj fields → dlookup fields "players" = none →
       resolveShape data = some (JVal.arr (fields.map Prod.snd))) ∧
    ((∀ xs, data ≠ JVal.arr xs) → (∀ fields, data ≠ JVal.obj fields) →
       resolveShape data = none ∧
       ∀ env, env.tableExists = true →
         import_players_run env data = abortOutcome msgUnsupported) := by
  refine ⟨?_, ?_, ?_, ?_⟩
  · rintro xs rfl; rfl
  · rintro fields v rfl hv; simp [resolveShape, hv]
  · rintro fields rfl hv; simp [resolveShape, hv]
  · intro h1 h2
    have hres : resolveShape data = none := by
      cases data
      case arr xs => exact absurd rfl (h1 xs)
      case obj fields => exact absurd rfl (h2 fields)
      all_goals rfl
    exact ⟨hres, fun env henv => by simp [import_players_run, henv, hres]⟩

theorem claim_C3_amended_witness :
    resolveShape (JVal.obj [("players",
        JVal.arr [JVal.obj [("name", JVal.str "X"), ("team", JVal.str "T1")]])])
      = some (JVal.arr [JVal.obj [("name", JVal.str "X"), ("team", JVal.str "T1")]]) :=
  (claim_C3_amended _).2.1 _ _ rfl rfl

theorem daysInMonth_le_31 (y m : Nat) : daysInMonth y m ≤ 31 := by
  unfold daysInMonth
  split
  · split <;> omega
  · split <;> omega

/-- A zero-padded in-range month is consumed whole by the `%m` regex. -/
theorem parseMonth_padded (m1 m2 : Nat) (rest : List Nat)
    (ha : 48 ≤ m1) (hb : m1 ≤ 57) (hc : 48 ≤ m2) (hd : m2 ≤ 57)
    (hlo : 1 ≤ 10 * (m1 - 48) + (m2 - 48))
    (hhi : 10 * (m1 - 48) + (m2 - 48) ≤ 12) :
    parseMonth (m1 :: m2 :: rest) = some (10 * (m1 - 48) + (m2 - 48), rest) := by
  simp only [parseMonth]
  repeat' split
  all_goals
    first
      | omega
      | (exfalso; omega)
      | (simp only [Option.some.injEq, Prod.mk.injEq, and_true]
         try omega)

/-- A zero-padded in-range day is consumed whole by the `%d` regex. -/
theorem parseDay_padded (d1 d2 : Nat) (rest : List Nat)
    (ha : 48 ≤ d1) (hc : 48 ≤ d2) (hd : d2 ≤ 57)
    (hlo : 1 ≤ 10 * (d1 - 48) + (d2 - 48))
    (hhi : 10 * (d1 - 48) + (d2 - 48) ≤ 31) :
    parseDay (d1 :: d2 :: rest) = some (10 * (d1 - 48) + (d2 - 48), rest) := by
  simp only [parseDay, isDigitCode, Bool.and_eq_true, decide_eq_true_eq]
  repeat' split
  all_goals
    first
      | omega
      | (exfalso; omega)
      | (simp only [Option.some.injEq, Prod.mk.injEq, and_true]
         try omega)

/-- Every strict `YYYY-MM-DD` code list is accepted by the embedded
`strptime` and yields exactly the date its digits denote. -/
theorem parse_of_strict (l : List Nat) (h : strictYMDCodes l = true) :
    parseYMDCodes l = some (strictDateCodes l) := by
  rcases l with _ | ⟨y1, _ | ⟨y2, _ | ⟨y3, _ | ⟨y4, _ | ⟨c5, _ | ⟨m1, _ | ⟨m2, _ |
    ⟨c8, _ | ⟨d1, _ | ⟨d2, _ | ⟨x, rest⟩⟩⟩⟩⟩⟩⟩⟩⟩⟩⟩ <;>
      first
        | exact Bool.noConfusion h
        | skip
  simp only [strictYMDCodes, decide_eq_true_eq] at h
  obtain ⟨hc5, hc8, h⟩ := h
  subst hc5
  subst hc8
  have h31 : daysInMonth
      (1000 * (y1 - 48) + 100 * (y2 - 48) + 10 * (y3 - 48) + (y4 - 48))
      (10 * (m1 - 48) + (m2 - 48)) ≤ 31 := daysInMonth_le_31 _ _
  simp only [parseYMDCodes]
  rw [if_pos (by simp only [isDigitCode, Bool.and_eq_true, decide_eq_true_eq]; omega)]
  rw [parseMonth_padded m1 m2 _ (by omega) (by omega) (by omega) (by omega)
    (by omega) (by omega)]
  simp only []
  rw [parseDay_padded d1 d2 _ (by omega) (by omega) (by omega) (by omega) (by omega)]
  simp only []
  rw [if_pos (by constructor <;> omega)]
  simp only [strictDateCodes]

/-- C2 counterexample: `"1995-6-1"` is not a strict `YYYY-MM-DD` string
(its month and day are not zero-padded), yet the code's parse accepts it
and produces June 1, 1995 instead of the null the claim requires — CPython
`strptime`'s `%m` and `%d` also match single digits. -/
theorem claim_C2_counterexample :
    isStrictYYYYMMDD "1995-6-1" = false ∧
    birthdateOf [("birthdate", JVal.str "1995-6-1")]
      = Except.ok (some ⟨1995, 6, 1⟩) :=
  ⟨rfl, rfl⟩

/-- C2 as amended: an absent birthdate normalizes to null; a string
birthdate always normalizes without an error to whatever the `'%Y-%m-%d'`
parse yields (null on failure, including the empty string); and every
strict `YYYY-MM-DD` string denoting a valid calendar date round-trips to
exactly that date.  (The code accepts slightly more than strict
`YYYY-MM-DD`: months and days may drop their zero padding; and a truthy
non-string birthdate raises a `TypeError` that aborts the record instead
of yielding null.) -/
theorem claim_C2_amended (pd : List (String × JVal)) (s : String) :
    (dlookup pd "birthdate" = none → birthdateOf pd = Except.ok none) ∧
    (dlookup pd "birthdate" = some (JVal.str s) →
       birthdateOf pd = Except.ok (pyStrptimeYMD s)) ∧
    (isStrictYYYYMMDD s = true → pyStrptimeYMD s = some (strictDateOf s)) := by
  refine ⟨?_, ?_, fun h => parse_of_strict (s.data.map Char.toNat) h⟩
  · intro h
    simp [birthdateOf, h]
  · intro h
    simp only [birthdateOf, h]
    by_cases he : s.isEmpty
    · have hs : s = "" := (String.isEmpty_iff s).mp he
      subst hs
      rfl
    · simp [pyTruthy, he]

theorem claim_C2_amended_witness :
    birthdateOf [("birthdate", JVal.str "1995-06-01")]
      = Except.ok (pyStrptimeYMD "1995-06-01") ∧
    pyStrptimeYMD "1995-06-01" = some (strictDateOf "1995-06-01") :=
  ⟨(claim_C2_amended [("birthdate", JVal.str "1995-06-01")] "1995-06-01").2.1 rfl,
   (claim_C2_amended [] "1995-06-01").2.2 rfl⟩

end LeagueImport
